/-
Verification of the payment idempotency-key generator
(`idempotency_key.py`): a shallow embedding of the Python module
together with theorems about its validation, timecode bucketing and
key-derivation behaviour.

Modelling conventions:
* Python `str` is Lean `String`; normalisation helpers (`strip`,
  `upper`) are modelled on ASCII text.
* Python `float` transaction amounts are modelled as exact rationals
  (every IEEE-754 double denotes a rational, and both operations the
  code performs on the amount — the `<= 0` comparison and `"%.2f"`
  formatting — are functions of that exact rational value).
* Python `int` is `Int` where a sign can occur (the timecode interval)
  and `Nat` for calendar fields.
* Raised exceptions are modelled with `Except`; the error type
  distinguishes the `ValueError`s raised by validation, the
  `ValueError` raised by `hashlib.new` on an unknown algorithm name,
  and `ZeroDivisionError`.
* `hashlib` is external library code; it is modelled by a registry
  function mapping an algorithm name to a digest function, populated
  with the executable SHA-256 defined below (the module's default and
  the only algorithm this development implements).
-/
import Mathlib

set_option maxRecDepth 4000

namespace IdemKey

/-! ## SHA-256 (FIPS 180-4), executable over byte lists

Words are `Nat` values kept below `2 ^ 32` by explicit reduction. -/

/-- Truncate to a 32-bit word. -/
def w32 (n : Nat) : Nat := n % 4294967296

/-- Right-rotate the 32-bit word `x` by `n` places. -/
def rotr32 (n x : Nat) : Nat := w32 ((x >>> n) ||| (x <<< (32 - n)))

/-- Bitwise complement within 32 bits. -/
def not32 (x : Nat) : Nat := x ^^^ 4294967295

/-- FIPS 180-4 `Ch(x, y, z)`. -/
def chGate (x y z : Nat) : Nat := (x &&& y) ^^^ (not32 x &&& z)

/-- FIPS 180-4 `Maj(x, y, z)`. -/
def majGate (x y z : Nat) : Nat := ((x &&& y) ^^^ (x &&& z)) ^^^ (y &&& z)

/-- FIPS 180-4 `Σ0`. -/
def bsig0 (x : Nat) : Nat := (rotr32 2 x ^^^ rotr32 13 x) ^^^ rotr32 22 x

/-- FIPS 180-4 `Σ1`. -/
def bsig1 (x : Nat) : Nat := (rotr32 6 x ^^^ rotr32 11 x) ^^^ rotr32 25 x

/-- FIPS 180-4 `σ0`. -/
def ssig0 (x : Nat) : Nat := (rotr32 7 x ^^^ rotr32 18 x) ^^^ (x >>> 3)

/-- FIPS 180-4 `σ1`. -/
def ssig1 (x : Nat) : Nat := (rotr32 17 x ^^^ rotr32 19 x) ^^^ (x >>> 10)

/-- The SHA-256 round constants `K[0] … K[63]` (FIPS 180-4 §4.2.2). -/
def sha256K : List Nat :=
  [1116352408, 1899447441, 3049323471, 3921009573, 961987163,
   1508970993, 2453635748, 2870763221, 3624381080, 310598401,
   607225278, 1426881987, 1925078388, 2162078206, 2614888103,
   3248222580, 3835390401, 4022224774, 264347078, 604807628,
   770255983, 1249150122, 1555081692, 1996064986, 2554220882,
   2821834349, 2952996808, 3210313671, 3336571891, 3584528711,
   113926993, 338241895, 666307205, 773529912, 1294757372,
   1396182291, 1695183700, 1986661051, 2177026350, 2456956037,
   2730485921, 2820302411, 3259730800, 3345764771, 3516065817,
   3600352804, 4094571909, 275423344, 430227734, 506948616,
   659060556, 883997877, 958139571, 1322822218, 1537002063,
   1747873779, 1955562222, 2024104815, 2227730452, 2361852424,
   2428436474, 2756734187, 3204031479, 3329325298]

/-- The SHA-256 initial hash value `H0 … H7` (FIPS 180-4 §5.3.3). -/
def sha256Init : List Nat :=
  [1779033703, 3144134277, 1013904242, 2773480762,
   1359893119, 2600822924, 528734635, 1541459225]

/-- Group a byte list into big-endian 32-bit words (partial trailing
groups are dropped; padded input is always a multiple of 4 bytes). -/
def bytesToWords32 : List Nat → List Nat
  | a :: b :: c :: d :: rest =>
      (((a <<< 24) ||| (b <<< 16)) ||| ((c <<< 8) ||| d)) :: bytesToWords32 rest
  | _ => []

/-- One extension step of the SHA-256 message schedule: given the
schedule so far (length `16 + i`), append word `16 + i`. -/
def scheduleStep (ws : List Nat) (i : Nat) : List Nat :=
  ws ++ [w32 (ssig1 (ws.getD (i + 14) 0) + ws.getD (i + 9) 0
              + ssig0 (ws.getD (i + 1) 0) + ws.getD i 0)]

/-- One of the 64 SHA-256 working rounds over the state
`[a, b, c, d, e, f, g, h]`. -/
def sha256Round (ws : List Nat) (st : List Nat) (i : Nat) : List Nat :=
  match st with
  | [a, b, c, d, e, f, g, h] =>
      let t1 := w32 (h + bsig1 e + chGate e f g + sha256K.getD i 0 + ws.getD i 0)
      let t2 := w32 (bsig0 a + majGate a b c)
      [w32 (t1 + t2), a, b, c, w32 (d + t1), e, f, g]
  | other => other

/-- Compress one 64-byte block into the running 8-word state. -/
def sha256Compress (st block : List Nat) : List Nat :=
  let ws := (List.range 48).foldl scheduleStep (bytesToWords32 block)
  let fin := (List.range 64).foldl (sha256Round ws) st
  (st.zip fin).map (fun p => w32 (p.1 + p.2))

/-- FIPS 180-4 §5.1.1 padding: a `0x80` byte, zeros to 56 mod 64, and
the 64-bit big-endian bit length. -/
def sha256Pad (msg : List Nat) : List Nat :=
  let bitLen := msg.length * 8
  msg ++ 128 :: List.replicate ((119 - msg.length % 64) % 64) 0
      ++ (List.range 8).map (fun i => (bitLen >>> (8 * (7 - i))) % 256)

/-- Split a (padded) byte list into its 64-byte blocks. -/
def toBlocks (l : List Nat) : List (List Nat) :=
  (List.range (l.length / 64)).map (fun i => (l.drop (64 * i)).take 64)

/-- SHA-256 digest (32 bytes) of a byte list. -/
def sha256Bytes (msg : List Nat) : List Nat :=
  let fin := (toBlocks (sha256Pad msg)).foldl sha256Compress sha256Init
  (fin.map (fun w => [(w >>> 24) % 256, (w >>> 16) % 256, (w >>> 8) % 256, w % 256])).flatten

/-! ## Hex encoding, decimal formatting, UTF-8 -/

/-- The character for the digit `n < 16`, in lowercase hex. -/
def hexChar (n : Nat) : Char :=
  if n < 10 then Char.ofNat (48 + n) else Char.ofNat (87 + n)

/-- Lowercase-hex encoding of a byte list (Python `hexdigest`). -/
def hexOfBytes (bs : List Nat) : String :=
  ⟨(bs.map (fun b => [hexChar (b / 16), hexChar (b % 16)])).flatten⟩

/-- Decimal digits of `n`, most significant first, prepended to an
accumulator. Structural recursion on a fuel argument keeps the
definition kernel-reducible; `natDec` supplies `n` itself as fuel,
which always suffices since `n / 10 < n` for `n ≥ 10`. -/
def natDecGo (fuel : Nat) (n : Nat) (acc : List Char) : List Char :=
  match fuel with
  | 0 => hexChar (n % 10) :: acc
  | fuel + 1 =>
      if n < 10 then hexChar (n % 10) :: acc
      else natDecGo fuel (n / 10) (hexChar (n % 10) :: acc)

/-- Decimal representation of a natural number. -/
def natDec (n : Nat) : String := ⟨natDecGo n n []⟩

/-- Zero-pad the decimal representation of `n` to width `w`
(Python `"%0wd"` for a non-negative argument). -/
def padNat (w n : Nat) : String :=
  ⟨List.replicate (w - (natDec n).length) '0'⟩ ++ natDec n

/-- Python `f"{n:02d}"` on an `int`: the sign counts toward the width,
so negative values pad their digit part to width 1. -/
def formatInt02 (n : Int) : String :=
  if n < 0 then "-" ++ padNat 1 (-n).toNat else padNat 2 n.toNat

/-- UTF-8 encoding of a single character, as bytes. -/
def utf8Char (c : Char) : List Nat :=
  let n := c.toNat
  if n < 128 then [n]
  else if n < 2048 then [192 ||| (n >>> 6), 128 ||| (n &&& 63)]
  else if n < 65536 then
    [224 ||| (n >>> 12), 128 ||| ((n >>> 6) &&& 63), 128 ||| (n &&& 63)]
  else
    [240 ||| (n >>> 18), 128 ||| ((n >>> 12) &&& 63),
     128 ||| ((n >>> 6) &&& 63), 128 ||| (n &&& 63)]

/-- UTF-8 encoding of a string, as bytes (Python `s.encode("utf-8")`). -/
def utf8 (s : String) : List Nat := (s.data.map utf8Char).flatten

/-! ## Exact decimal formatting of the transaction amount

Python renders `f"{x:.2f}"` by correctly rounding the exact value of
the binary float `x` to two decimals, ties to even. Amounts are
modelled as the exact rational value of the float, so the format step
is exact rounding of a rational. -/

/-- Floor of a rational number, computed from its reduced fraction. -/
def ratFloor (q : ℚ) : Int := Int.fdiv q.num q.den

/-- The `i`-th digit after the decimal point of a rational, for
stating agreement of decimal expansions. -/
def decimalDigit (i : Nat) (q : ℚ) : Int :=
  Int.fdiv (q.num * ((10 ^ i : Nat) : Int)) q.den % 10

/-- The exact value `100 * q` correctly rounded to an integer, ties
to even, computed on the reduced fraction `q.num / q.den` (plain
integer arithmetic so that the kernel can evaluate it). -/
def hundredths (q : ℚ) : Int :=
  let a := 100 * q.num
  let e := Int.fdiv a q.den
  let r := a - e * q.den
  if 2 * r < (q.den : Int) then e
  else if (q.den : Int) < 2 * r then e + 1
  else if e % 2 = 0 then e else e + 1

/-- Two-decimal rendering of a non-negative rational: the rounded
count of hundredths, split around the decimal point. -/
def formatAmountAbs (q : ℚ) : String :=
  let n := (hundredths q).toNat
  natDec (n / 100) ++ "." ++ padNat 2 (n % 100)

/-- Python `f"{x:.2f}"` on the exact rational value of the float `x`:
round to hundredths (ties to even), two digits after the point, a
leading sign for a negative value. -/
def formatAmount2 (q : ℚ) : String :=
  if q.num < 0 then "-" ++ formatAmountAbs (Rat.neg q) else formatAmountAbs q

/-! ## The data model of `idempotency_key.py` -/

/-- The `ClientType` enumeration. -/
inductive ClientType
  | web_app
  | mobile_app
  | web_api
  | desktop_app
  | other
deriving DecidableEq

/-- The `.value` string of a `ClientType` member. -/
def ClientType.value : ClientType → String
  | .web_app => "web_app"
  | .mobile_app => "mobile_app"
  | .web_api => "web_api"
  | .desktop_app => "desktop_app"
  | .other => "other"

/-- A `datetime.datetime` instant, to the precision the module reads:
the `strftime` fields `%Y %m %d %H` and the `minute` attribute.
Seconds and smaller fields never influence the output. `%Y` is
modelled as the documented zero-padded four-digit year; some C
libraries render years below 1000 unpadded, and no claim reaches
such a year. -/
structure Instant where
  year : Nat
  month : Nat
  day : Nat
  hour : Nat
  minute : Nat
deriving DecidableEq

/-- The field ranges guaranteed by `datetime` (`MINYEAR = 1`,
`MAXYEAR = 9999`). -/
def Instant.Valid (t : Instant) : Prop :=
  1 ≤ t.year ∧ t.year ≤ 9999 ∧ 1 ≤ t.month ∧ t.month ≤ 12 ∧
    1 ≤ t.day ∧ t.day ≤ 31 ∧ t.hour ≤ 23 ∧ t.minute ≤ 59

instance (t : Instant) : Decidable t.Valid := by
  unfold Instant.Valid; infer_instance

/-- The exceptions the module can raise. `invalidInput` and
`unsupportedAlgorithm` are both Python `ValueError`s — raised by
`_validate` and by `hashlib.new` respectively and distinguished by
their carried message — while `zeroDivision` is `ZeroDivisionError`. -/
inductive PyError
  | invalidInput (msg : String)
  | unsupportedAlgorithm (msg : String)
  | zeroDivision
deriving DecidableEq

instance {ε α : Type} [DecidableEq ε] [DecidableEq α] :
    DecidableEq (Except ε α)
  | .ok a, .ok b =>
      if h : a = b then .isTrue (by rw [h]) else .isFalse (by simp [h])
  | .ok _, .error _ => .isFalse (by simp)
  | .error _, .ok _ => .isFalse (by simp)
  | .error a, .error b =>
      if h : a = b then .isTrue (by rw [h]) else .isFalse (by simp [h])

/-- Python `str.strip` (on ASCII whitespace): drop whitespace from
both ends of the character list. -/
def pyStrip (s : String) : String :=
  ⟨((s.data.dropWhile Char.isWhitespace).reverse.dropWhile
      Char.isWhitespace).reverse⟩

/-- Python `str.upper` (on ASCII letters). -/
def pyUpper (s : String) : String := ⟨s.data.map Char.toUpper⟩

/-- The fields of a constructed `PaymentIdentikit`, exactly as
`__init__` stores them (bank codes uppercased and stripped, account
numbers and location stripped, optional fields defaulted to `""`). -/
structure PaymentIdentikit where
  receiver_bank_code : String
  receiver_account_number : String
  sender_bank_code : String
  sender_account_number : String
  transaction_amount : ℚ
  client_type : ClientType
  client_location : String
  internal_transaction_narration : String
  client_id : String
  timecode_interval_minutes : Int
deriving DecidableEq

/-- `PaymentIdentikit._validate`, applied to the stored (normalized)
fields: the checks run in source order and the first failure raises
`ValueError` with the source's message. On success the object is
returned. -/
def PaymentIdentikit.validate (k : PaymentIdentikit) :
    Except PyError PaymentIdentikit :=
  if k.receiver_bank_code = "" then
    .error (.invalidInput "receiver_bank_code cannot be empty")
  else if k.receiver_account_number = "" then
    .error (.invalidInput "receiver_account_number cannot be empty")
  else if k.sender_bank_code = "" then
    .error (.invalidInput "sender_bank_code cannot be empty")
  else if k.sender_account_number = "" then
    .error (.invalidInput "sender_account_number cannot be empty")
  else if k.client_location = "" then
    .error (.invalidInput "client_location cannot be empty")
  else if k.transaction_amount ≤ 0 then
    .error (.invalidInput "transaction_amount must be greater than 0")
  else
    .ok k

/-- `PaymentIdentikit.__init__`: normalize every field, store it, then
validate. `none` for the two optional arguments models Python `None`;
`x or ""` also collapses an explicit empty string, which `getD`
preserves as the same `""`. -/
def PaymentIdentikit.make
    (receiver_bank_code receiver_account_number : String)
    (sender_bank_code sender_account_number : String)
    (transaction_amount : ℚ) (client_type : ClientType)
    (client_location : String)
    (internal_transaction_narration client_id : Option String)
    (timecode_interval_minutes : Int) :
    Except PyError PaymentIdentikit :=
  PaymentIdentikit.validate
    { receiver_bank_code := pyStrip (pyUpper receiver_bank_code)
      receiver_account_number := pyStrip receiver_account_number
      sender_bank_code := pyStrip (pyUpper sender_bank_code)
      sender_account_number := pyStrip sender_account_number
      transaction_amount := transaction_amount
      client_type := client_type
      client_location := pyStrip client_location
      internal_transaction_narration := internal_transaction_narration.getD ""
      client_id := client_id.getD ""
      timecode_interval_minutes := timecode_interval_minutes }

/-- `PaymentIdentikit.generate_timecode` with an explicit timestamp
(the `transaction_time=None` branch reads the wall clock and is
outside every claim). Python `//` is floor division (`Int.fdiv`) and
raises `ZeroDivisionError` on a zero divisor; the rounded minute is
spliced into the format string by `f"…{rounded_minutes:02d}"`. -/
def PaymentIdentikit.generate_timecode (k : PaymentIdentikit)
    (t : Instant) : Except PyError String :=
  if k.timecode_interval_minutes = 0 then .error .zeroDivision
  else
    .ok (padNat 4 t.year ++ padNat 2 t.month ++ padNat 2 t.day ++
      padNat 2 t.hour ++
      formatInt02 (Int.fdiv t.minute k.timecode_interval_minutes *
        k.timecode_interval_minutes))

/-- The `hashlib.new` registry, restricted to the algorithms this
development implements — `"sha256"`, the module's default. `none`
models the `ValueError` that `hashlib.new` raises for an unregistered
name. -/
def hashlibRegistry : String → Option (List Nat → List Nat) :=
  fun name => if name = "sha256" then some sha256Bytes else none

/-- `PaymentIdentikit.generate_idempotency_key` with an explicit
timestamp. The timecode is computed first (so a zero interval raises
before the algorithm name is looked up), then the two `|`-joined
strings are hashed independently and the hex digests joined by a
period. -/
def PaymentIdentikit.generate_idempotency_key (k : PaymentIdentikit)
    (t : Instant) (hash_algorithm : String) : Except PyError String := do
  let timecode ← k.generate_timecode t
  let receiver_string := String.intercalate "|"
    [k.receiver_bank_code, k.receiver_account_number]
  let sender_string := String.intercalate "|"
    [k.sender_bank_code, k.sender_account_number, timecode,
     formatAmount2 k.transaction_amount,
     k.internal_transaction_narration, k.client_type.value,
     k.client_id, k.client_location]
  match hashlibRegistry hash_algorithm with
  | none =>
      .error (.unsupportedAlgorithm ("unsupported hash type " ++ hash_algorithm))
  | some hf =>
      .ok (hexOfBytes (hf (utf8 receiver_string)) ++ "." ++
        hexOfBytes (hf (utf8 sender_string)))

/-! ## The spec's description of the derived strings

These definitions follow the wording of the specification (§4.2,
§4.3) rather than the source, for comparison with the functions
above. -/

/-- Spec §4.3 step 2: the receiver string, the `|`-join of the
normalized receiver bank code and account number. -/
def specReceiverString (k : PaymentIdentikit) : String :=
  k.receiver_bank_code ++ "|" ++ k.receiver_account_number

/-- Spec §4.3 step 3: the sender string, the `|`-join of the
normalized sender fields, the timecode, the amount at two decimals,
the narration, the client type token, the client id and the
location. -/
def specSenderString (k : PaymentIdentikit) (timecode : String) : String :=
  k.sender_bank_code ++ "|" ++ k.sender_account_number ++ "|" ++
    timecode ++ "|" ++ formatAmount2 k.transaction_amount ++ "|" ++
    k.internal_transaction_narration ++ "|" ++ k.client_type.value ++
    "|" ++ k.client_id ++ "|" ++ k.client_location

/-- Spec §4.3 steps 4–5: the key as the period-joined lowercase-hex
digests of the two strings under the digest function `hf`. -/
def specKeyString (hf : List Nat → List Nat) (k : PaymentIdentikit)
    (timecode : String) : String :=
  hexOfBytes (hf (utf8 (specReceiverString k))) ++ "." ++
    hexOfBytes (hf (utf8 (specSenderString k timecode)))

/-- Spec §4.2: the timecode as claim C3 states it — zero-padded
calendar fields followed by the two-digit bucket
`floor(minute / interval) * interval`, in natural-number arithmetic. -/
def specTimecode (interval : Nat) (t : Instant) : String :=
  padNat 4 t.year ++ padNat 2 t.month ++ padNat 2 t.day ++
    padNat 2 t.hour ++ padNat 2 (t.minute / interval * interval)

/-! ## Helper lemmas -/

lemma natDecGo_length (fuel : Nat) : ∀ (k n : Nat) (acc : List Char),
    n < 10 ^ k → 1 ≤ k → (natDecGo fuel n acc).length ≤ k + acc.length := by
  induction fuel with
  | zero =>
      intro k n acc _ hk
      simp only [natDecGo, List.length_cons]
      omega
  | succ fuel ih =>
      intro k n acc hn hk
      by_cases h10 : n < 10
      · simp only [natDecGo, if_pos h10, List.length_cons]
        omega
      · simp only [natDecGo, if_neg h10]
        obtain ⟨k1, rfl⟩ : ∃ k1, k = k1 + 1 := ⟨k - 1, by omega⟩
        have hk1 : 1 ≤ k1 := by
          rcases Nat.eq_zero_or_pos k1 with h | h
          · subst h
            norm_num at hn
            omega
          · exact h
        have hdiv : n / 10 < 10 ^ k1 := by
          rw [Nat.div_lt_iff_lt_mul (by omega)]
          calc n < 10 ^ (k1 + 1) := hn
          _ = 10 ^ k1 * 10 := by rw [pow_succ]
        have := ih k1 (n / 10) (hexChar (n % 10) :: acc) hdiv hk1
        simp only [List.length_cons] at this ⊢
        omega

lemma natDec_length_le (k n : Nat) (hn : n < 10 ^ k) (hk : 1 ≤ k) :
    (natDec n).length ≤ k := by
  have h := natDecGo_length n k n [] hn hk
  exact h

lemma padNat_length (w n : Nat) (h : (natDec n).length ≤ w) :
    (padNat w n).length = w := by
  have h1 : (padNat w n).length =
      (⟨List.replicate (w - (natDec n).length) '0'⟩ : String).length +
        (natDec n).length :=
    String.length_append _ _
  have h2 : (⟨List.replicate (w - (natDec n).length) '0'⟩ : String).length
      = w - (natDec n).length := by
    show (List.replicate (w - (natDec n).length) '0').length = _
    exact List.length_replicate _ _
  omega

/-- Decoder for two-digit zero-padded decimal strings, a left inverse
of `padNat 2` on `[0, 100)`. -/
def unpad2 (s : String) : Nat :=
  match s.data with
  | [a, b] => (a.toNat - 48) * 10 + (b.toNat - 48)
  | _ => 0

lemma unpad2_pad2 : ∀ m < 100, unpad2 (padNat 2 m) = m := by decide

lemma pad2_injOn (m1 m2 : Nat) (h1 : m1 < 100) (h2 : m2 < 100)
    (h : padNat 2 m1 = padNat 2 m2) : m1 = m2 := by
  have e1 := unpad2_pad2 m1 h1
  have e2 := unpad2_pad2 m2 h2
  rw [← e1, ← e2, h]

lemma string_append_right_inj {a b c : String} (h : a ++ b = a ++ c) : b = c := by
  apply String.ext
  have hd := congrArg String.data h
  rw [String.data_append, String.data_append] at hd
  exact List.append_cancel_left hd

lemma string_append_left_inj {a b c : String} (h : a ++ c = b ++ c) : a = b := by
  apply String.ext
  have hd := congrArg String.data h
  rw [String.data_append, String.data_append] at hd
  exact (List.append_left_inj _).mp hd

lemma append2_concat (w a b c : String) (h : a ++ b = c) :
    w ++ a ++ b = w ++ c := by
  rw [String.append_assoc, h]

lemma clientType_value_inj : ∀ a b : ClientType, a.value = b.value → a = b := by
  intro a b
  cases a <;> cases b <;> decide

lemma formatInt02_natCast (x : Nat) : formatInt02 (x : Int) = padNat 2 x := by
  have h : ¬ ((x : Int) < 0) := by simp
  unfold formatInt02
  rw [if_neg h]
  rw [Int.toNat_natCast]

lemma fdiv_mul_natCast (m : Nat) (i : Int) (hi : 0 ≤ i) :
    Int.fdiv (m : Int) i * i = ((m / i.toNat * i.toNat : Nat) : Int) := by
  conv_lhs => rw [← Int.toNat_of_nonneg hi]
  rw [← Int.ofNat_fdiv, ← Int.ofNat_mul]

lemma generate_timecode_of_pos (k : PaymentIdentikit) (t : Instant)
    (hi : 1 ≤ k.timecode_interval_minutes) :
    k.generate_timecode t =
      .ok (specTimecode k.timecode_interval_minutes.toNat t) := by
  have h0 : ¬ k.timecode_interval_minutes = 0 := by omega
  unfold PaymentIdentikit.generate_timecode specTimecode
  rw [if_neg h0, fdiv_mul_natCast t.minute _ (by omega), formatInt02_natCast]

lemma generate_timecode_ok_of_ne (k : PaymentIdentikit) (t : Instant)
    (h0 : k.timecode_interval_minutes ≠ 0) :
    ∃ tc, k.generate_timecode t = .ok tc := by
  unfold PaymentIdentikit.generate_timecode
  rw [if_neg h0]
  exact ⟨_, rfl⟩

lemma specTimecode_length (interval : Nat) (t : Instant) (ht : t.Valid) :
    (specTimecode interval t).length = 12 := by
  obtain ⟨h1, h2, h3, h4, h5, h6, h7, h8⟩ := ht
  have e4 : (10 : Nat) ^ 4 = 10000 := by norm_num
  have e2 : (10 : Nat) ^ 2 = 100 := by norm_num
  have hy : (padNat 4 t.year).length = 4 :=
    padNat_length _ _ (natDec_length_le 4 _ (by omega) (by omega))
  have hmo : (padNat 2 t.month).length = 2 :=
    padNat_length _ _ (natDec_length_le 2 _ (by omega) (by omega))
  have hd : (padNat 2 t.day).length = 2 :=
    padNat_length _ _ (natDec_length_le 2 _ (by omega) (by omega))
  have hh : (padNat 2 t.hour).length = 2 :=
    padNat_length _ _ (natDec_length_le 2 _ (by omega) (by omega))
  have hbb : t.minute / interval * interval ≤ t.minute :=
    Nat.div_mul_le_self _ _
  have hb : (padNat 2 (t.minute / interval * interval)).length = 2 :=
    padNat_length _ _ (natDec_length_le 2 _ (by omega) (by omega))
  unfold specTimecode
  rw [String.length_append, String.length_append, String.length_append,
    String.length_append, hy, hmo, hd, hh, hb]

lemma generate_idempotency_key_ok (k : PaymentIdentikit) (t : Instant)
    (alg : String) (tc : String) (hf : List Nat → List Nat)
    (htc : k.generate_timecode t = .ok tc)
    (halg : hashlibRegistry alg = some hf) :
    k.generate_idempotency_key t alg = .ok (specKeyString hf k tc) := by
  unfold PaymentIdentikit.generate_idempotency_key
  rw [htc, halg]
  rfl

lemma generate_idempotency_key_unsupported (k : PaymentIdentikit)
    (t : Instant) (alg : String) (tc : String)
    (htc : k.generate_timecode t = .ok tc)
    (halg : hashlibRegistry alg = none) :
    k.generate_idempotency_key t alg =
      .error (.unsupportedAlgorithm ("unsupported hash type " ++ alg)) := by
  unfold PaymentIdentikit.generate_idempotency_key
  rw [htc, halg]
  rfl

lemma generate_idempotency_key_zero (k : PaymentIdentikit) (t : Instant)
    (alg : String) (h0 : k.timecode_interval_minutes = 0) :
    k.generate_idempotency_key t alg = .error .zeroDivision := by
  unfold PaymentIdentikit.generate_idempotency_key
    PaymentIdentikit.generate_timecode
  rw [if_pos h0]
  rfl

/-! ## Concrete fixtures used by witnesses and counterexamples -/

/-- A concrete valid Identikit (the fields of the repository's first
usage example, with a whole-number amount). -/
def baseKit : PaymentIdentikit :=
  { receiver_bank_code := "BANK001"
    receiver_account_number := "1234567890"
    sender_bank_code := "BANK002"
    sender_account_number := "9876543210"
    transaction_amount := mkRat 100 1
    client_type := .web_app
    client_location := "US-CA-SF"
    internal_transaction_narration := "PAYMENT"
    client_id := "client-1"
    timecode_interval_minutes := 15 }

/-- A concrete instant, 2024-03-07 14:05. -/
def baseInstant : Instant := ⟨2024, 3, 7, 14, 5⟩

/-! ## The claims -/

/-- C1: the idempotency key is a pure function of the Identikit's
fields, the instant's timecode bucket and the algorithm: two calls
whose timecodes agree — in particular repeated calls with the same
instant — return identical results. -/
theorem c1_key_determinism (k : PaymentIdentikit) (t1 t2 : Instant)
    (alg : String) (htc : k.generate_timecode t1 = k.generate_timecode t2) :
    k.generate_idempotency_key t1 alg = k.generate_idempotency_key t2 alg := by
  unfold PaymentIdentikit.generate_idempotency_key
  rw [htc]

theorem c1_key_determinism_witness :
    baseKit.generate_timecode ⟨2024, 3, 7, 14, 5⟩ =
      baseKit.generate_timecode ⟨2024, 3, 7, 14, 14⟩ ∧
    baseKit.generate_idempotency_key ⟨2024, 3, 7, 14, 5⟩ "sha256" =
      baseKit.generate_idempotency_key ⟨2024, 3, 7, 14, 14⟩ "sha256" :=
  ⟨by decide, c1_key_determinism baseKit _ _ "sha256" (by decide)⟩

/-- C2: whenever the timecode is produced and the algorithm is
registered, the generated key is exactly
`hex(H(receiver_string)) ++ "." ++ hex(H(sender_string))` where the
receiver string is `RBC|RAN`, the sender string is
`SBC|SAN|TTC|amount at 2 decimals|narration|client type
token|client id|location`, and each half is the lowercase-hex digest
of the UTF-8 bytes of its string. -/
theorem c2_key_form (k : PaymentIdentikit) (t : Instant) (alg tc : String)
    (hf : List Nat → List Nat)
    (htc : k.generate_timecode t = .ok tc)
    (halg : hashlibRegistry alg = some hf) :
    k.generate_idempotency_key t alg = .ok (specKeyString hf k tc) :=
  generate_idempotency_key_ok k t alg tc hf htc halg

theorem c2_key_form_witness :
    baseKit.generate_timecode baseInstant = .ok "202403071400" ∧
    hashlibRegistry "sha256" = some sha256Bytes ∧
    baseKit.generate_idempotency_key baseInstant "sha256" =
      .ok (specKeyString sha256Bytes baseKit "202403071400") :=
  ⟨by decide, rfl,
    c2_key_form baseKit baseInstant "sha256" "202403071400" sha256Bytes
      (by decide) rfl⟩

/-- C3: for an interval in 1..59 and a datetime-valid instant, the
timecode is the zero-padded `YYYY MM DD HH` fields followed by the
two-digit bucket `floor(minute / interval) * interval`, a 12-character
string. -/
theorem c3_timecode_formula (k : PaymentIdentikit) (t : Instant)
    (hi : 1 ≤ k.timecode_interval_minutes ∧ k.timecode_interval_minutes ≤ 59)
    (ht : t.Valid) :
    k.generate_timecode t =
      .ok (specTimecode k.timecode_interval_minutes.toNat t) ∧
    (specTimecode k.timecode_interval_minutes.toNat t).length = 12 :=
  ⟨generate_timecode_of_pos k t hi.1, specTimecode_length _ t ht⟩

theorem c3_timecode_formula_witness :
    baseKit.generate_timecode baseInstant = .ok (specTimecode 15 baseInstant) ∧
    (specTimecode 15 baseInstant).length = 12 :=
  c3_timecode_formula baseKit baseInstant (by decide) (by decide)

/-- C4: two instants of the same hour whose minutes lie in the same
interval band produce the same timecode and adjacent bands produce
different ones; with the default 15-minute interval the 14:00, 14:05,
14:10 and 14:14 instants of a date all map to `<date>1400` while
14:15 maps to `<date>1415`. -/
theorem c4_bucket_stability (k : PaymentIdentikit) (y mo d h m1 m2 : Nat)
    (hi : 1 ≤ k.timecode_interval_minutes ∧ k.timecode_interval_minutes ≤ 59)
    (hm1 : m1 ≤ 59) (hm2 : m2 ≤ 59) :
    (m1 / k.timecode_interval_minutes.toNat =
        m2 / k.timecode_interval_minutes.toNat →
      k.generate_timecode ⟨y, mo, d, h, m1⟩ =
        k.generate_timecode ⟨y, mo, d, h, m2⟩) ∧
    (m1 / k.timecode_interval_minutes.toNat + 1 =
        m2 / k.timecode_interval_minutes.toNat →
      k.generate_timecode ⟨y, mo, d, h, m1⟩ ≠
        k.generate_timecode ⟨y, mo, d, h, m2⟩) ∧
    (k.timecode_interval_minutes = 15 →
      k.generate_timecode ⟨y, mo, d, 14, 0⟩ =
        .ok (padNat 4 y ++ padNat 2 mo ++ padNat 2 d ++ "1400") ∧
      k.generate_timecode ⟨y, mo, d, 14, 5⟩ =
        .ok (padNat 4 y ++ padNat 2 mo ++ padNat 2 d ++ "1400") ∧
      k.generate_timecode ⟨y, mo, d, 14, 10⟩ =
        .ok (padNat 4 y ++ padNat 2 mo ++ padNat 2 d ++ "1400") ∧
      k.generate_timecode ⟨y, mo, d, 14, 14⟩ =
        .ok (padNat 4 y ++ padNat 2 mo ++ padNat 2 d ++ "1400") ∧
      k.generate_timecode ⟨y, mo, d, 14, 15⟩ =
        .ok (padNat 4 y ++ padNat 2 mo ++ padNat 2 d ++ "1415")) := by
  have hn : 1 ≤ k.timecode_interval_minutes.toNat := by omega
  refine ⟨?_, ?_, ?_⟩
  · intro hb
    rw [generate_timecode_of_pos k _ hi.1, generate_timecode_of_pos k _ hi.1]
    simp only [specTimecode]
    rw [hb]
  · intro hb heq
    rw [generate_timecode_of_pos k _ hi.1, generate_timecode_of_pos k _ hi.1]
      at heq
    have hs : specTimecode k.timecode_interval_minutes.toNat ⟨y, mo, d, h, m1⟩
        = specTimecode k.timecode_interval_minutes.toNat ⟨y, mo, d, h, m2⟩ :=
      Except.ok.inj heq
    simp only [specTimecode] at hs
    have hp := string_append_right_inj hs
    have hb1 : m1 / k.timecode_interval_minutes.toNat *
        k.timecode_interval_minutes.toNat ≤ m1 := Nat.div_mul_le_self _ _
    have hb2 : m2 / k.timecode_interval_minutes.toNat *
        k.timecode_interval_minutes.toNat ≤ m2 := Nat.div_mul_le_self _ _
    have hbe := pad2_injOn _ _ (Nat.lt_of_le_of_lt hb1 (by omega))
      (Nat.lt_of_le_of_lt hb2 (by omega)) hp
    rw [← hb, Nat.add_mul, Nat.one_mul] at hbe
    have h0 : m1 / k.timecode_interval_minutes.toNat *
          k.timecode_interval_minutes.toNat + 0 =
        m1 / k.timecode_interval_minutes.toNat *
          k.timecode_interval_minutes.toNat +
          k.timecode_interval_minutes.toNat := by
      simpa using hbe
    have hzero := Nat.add_left_cancel h0
    omega
  · intro h15
    have h1 : 1 ≤ k.timecode_interval_minutes := by omega
    refine ⟨?_, ?_, ?_, ?_, ?_⟩
    · rw [generate_timecode_of_pos k _ h1, h15]
      simp only [specTimecode]
      rw [show padNat 2 14 = "14" from by decide,
        show padNat 2 (0 / Int.toNat 15 * Int.toNat 15) = "00" from by decide,
        String.append_assoc,
        show ("14" ++ "00" : String) = "1400" from by decide]
    · rw [generate_timecode_of_pos k _ h1, h15]
      simp only [specTimecode]
      rw [show padNat 2 14 = "14" from by decide,
        show padNat 2 (5 / Int.toNat 15 * Int.toNat 15) = "00" from by decide,
        String.append_assoc,
        show ("14" ++ "00" : String) = "1400" from by decide]
    · rw [generate_timecode_of_pos k _ h1, h15]
      simp only [specTimecode]
      rw [show padNat 2 14 = "14" from by decide,
        show padNat 2 (10 / Int.toNat 15 * Int.toNat 15) = "00" from by decide,
        String.append_assoc,
        show ("14" ++ "00" : String) = "1400" from by decide]
    · rw [generate_timecode_of_pos k _ h1, h15]
      simp only [specTimecode]
      rw [show padNat 2 14 = "14" from by decide,
        show padNat 2 (14 / Int.toNat 15 * Int.toNat 15) = "00" from by decide,
        String.append_assoc,
        show ("14" ++ "00" : String) = "1400" from by decide]
    · rw [generate_timecode_of_pos k _ h1, h15]
      simp only [specTimecode]
      rw [show padNat 2 14 = "14" from by decide,
        show padNat 2 (15 / Int.toNat 15 * Int.toNat 15) = "15" from by decide,
        String.append_assoc,
        show ("14" ++ "15" : String) = "1415" from by decide]

theorem c4_bucket_stability_witness :
    baseKit.generate_timecode ⟨2024, 3, 7, 14, 5⟩ =
      baseKit.generate_timecode ⟨2024, 3, 7, 14, 14⟩ ∧
    baseKit.generate_timecode ⟨2024, 3, 7, 14, 0⟩ =
      .ok (padNat 4 2024 ++ padNat 2 3 ++ padNat 2 7 ++ "1400") ∧
    baseKit.generate_timecode ⟨2024, 3, 7, 14, 15⟩ =
      .ok (padNat 4 2024 ++ padNat 2 3 ++ padNat 2 7 ++ "1415") :=
  ⟨(c4_bucket_stability baseKit 2024 3 7 14 5 14 (by decide) (by decide)
      (by decide)).1 (by decide),
    ((c4_bucket_stability baseKit 2024 3 7 14 0 15 (by decide) (by decide)
      (by decide)).2.2 rfl).1,
    ((c4_bucket_stability baseKit 2024 3 7 14 0 15 (by decide) (by decide)
      (by decide)).2.2 rfl).2.2.2.2⟩

/-- C5: construction fails exactly when a required field is empty
after normalization or the amount is not strictly positive; the error
is an `InvalidInput` (`ValueError`) naming the first offending field,
and on failure no object is produced (the result is the error, not an
`.ok`). -/
theorem c5_validation (rbc ran sbc san : String) (amt : ℚ) (ct : ClientType)
    (cloc : String) (itn cid : Option String) (iv : Int) :
    ((PaymentIdentikit.make rbc ran sbc san amt ct cloc itn cid iv).isOk =
        true ↔
      (pyStrip (pyUpper rbc) ≠ "" ∧ pyStrip ran ≠ "" ∧
        pyStrip (pyUpper sbc) ≠ "" ∧ pyStrip san ≠ "" ∧
        pyStrip cloc ≠ "" ∧ 0 < amt)) ∧
    (pyStrip (pyUpper rbc) = "" →
      PaymentIdentikit.make rbc ran sbc san amt ct cloc itn cid iv =
        .error (.invalidInput "receiver_bank_code cannot be empty")) ∧
    (pyStrip (pyUpper rbc) ≠ "" → pyStrip ran = "" →
      PaymentIdentikit.make rbc ran sbc san amt ct cloc itn cid iv =
        .error (.invalidInput "receiver_account_number cannot be empty")) ∧
    (pyStrip (pyUpper rbc) ≠ "" → pyStrip ran ≠ "" →
      pyStrip (pyUpper sbc) = "" →
      PaymentIdentikit.make rbc ran sbc san amt ct cloc itn cid iv =
        .error (.invalidInput "sender_bank_code cannot be empty")) ∧
    (pyStrip (pyUpper rbc) ≠ "" → pyStrip ran ≠ "" →
      pyStrip (pyUpper sbc) ≠ "" → pyStrip san = "" →
      PaymentIdentikit.make rbc ran sbc san amt ct cloc itn cid iv =
        .error (.invalidInput "sender_account_number cannot be empty")) ∧
    (pyStrip (pyUpper rbc) ≠ "" → pyStrip ran ≠ "" →
      pyStrip (pyUpper sbc) ≠ "" → pyStrip san ≠ "" → pyStrip cloc = "" →
      PaymentIdentikit.make rbc ran sbc san amt ct cloc itn cid iv =
        .error (.invalidInput "client_location cannot be empty")) ∧
    (pyStrip (pyUpper rbc) ≠ "" → pyStrip ran ≠ "" →
      pyStrip (pyUpper sbc) ≠ "" → pyStrip san ≠ "" → pyStrip cloc ≠ "" →
      amt ≤ 0 →
      PaymentIdentikit.make rbc ran sbc san amt ct cloc itn cid iv =
        .error (.invalidInput "transaction_amount must be greater than 0")) := by
  simp only [PaymentIdentikit.make, PaymentIdentikit.validate]
  split_ifs with h1 h2 h3 h4 h5 h6 <;>
    simp_all [Except.isOk, Except.toBool, not_le]

theorem c5_validation_witness :
    (PaymentIdentikit.make "BANKA" "ACC1" "BANKB" "ACC2" (mkRat 1 100)
      .web_app "LOC" none none 15).isOk = true ∧
    PaymentIdentikit.make "BANKA" "ACC1" "BANKB" "ACC2" (mkRat 0 1)
      .web_app "LOC" none none 15 =
      .error (.invalidInput "transaction_amount must be greater than 0") ∧
    PaymentIdentikit.make "BANKA" "  " "BANKB" "ACC2" (mkRat 1 100)
      .web_app "LOC" none none 15 =
      .error (.invalidInput "receiver_account_number cannot be empty") :=
  ⟨(c5_validation "BANKA" "ACC1" "BANKB" "ACC2" (mkRat 1 100)
      .web_app "LOC" none none 15).1.mpr
      ⟨by decide, by decide, by decide, by decide, by decide, by decide⟩,
    (c5_validation "BANKA" "ACC1" "BANKB" "ACC2" (mkRat 0 1)
      .web_app "LOC" none none 15).2.2.2.2.2.2
      (by decide) (by decide) (by decide) (by decide) (by decide) (by decide),
    (c5_validation "BANKA" "  " "BANKB" "ACC2" (mkRat 1 100)
      .web_app "LOC" none none 15).2.2.1 (by decide) (by decide)⟩

/-- C6 as stated is falsified by an Identikit constructed with a zero
timecode interval: construction succeeds, `"sha256"` is supported,
yet key generation raises `ZeroDivisionError` — so a supported
algorithm can raise, and an unsupported one would fail with the wrong
error kind. -/
theorem c6_counterexample :
    PaymentIdentikit.make "BANK001" "1234567890" "BANK002" "9876543210"
        (mkRat 100 1) .web_app "US-CA-SF" (some "PAYMENT") (some "client-1")
        0 =
      .ok { baseKit with timecode_interval_minutes := 0 } ∧
    (hashlibRegistry "sha256").isSome = true ∧
    ({ baseKit with timecode_interval_minutes := 0 } :
        PaymentIdentikit).generate_idempotency_key baseInstant "sha256" =
      .error .zeroDivision :=
  ⟨by decide, rfl, generate_idempotency_key_zero _ _ _ rfl⟩

/-- C6 (amended): for every validly constructed Identikit whose
timecode interval is nonzero, key generation fails with
`UnsupportedAlgorithm` (hashlib's `ValueError`) exactly when the
algorithm is not registered, and for a registered algorithm it returns
a key and never raises. -/
theorem c6_unsupported_algorithm (k : PaymentIdentikit) (t : Instant)
    (alg : String) (h0 : k.timecode_interval_minutes ≠ 0) :
    (k.generate_idempotency_key t alg =
        .error (.unsupportedAlgorithm ("unsupported hash type " ++ alg)) ↔
      hashlibRegistry alg = none) ∧
    (∀ hf, hashlibRegistry alg = some hf →
      ∃ s, k.generate_idempotency_key t alg = .ok s) := by
  obtain ⟨tc, htc⟩ := generate_timecode_ok_of_ne k t h0
  constructor
  · constructor
    · intro herr
      cases hreg : hashlibRegistry alg with
      | none => rfl
      | some hf =>
          rw [generate_idempotency_key_ok k t alg tc hf htc hreg] at herr
          exact absurd herr (by simp)
    · intro hreg
      exact generate_idempotency_key_unsupported k t alg tc htc hreg
  · intro hf hreg
    exact ⟨_, generate_idempotency_key_ok k t alg tc hf htc hreg⟩

theorem c6_unsupported_algorithm_witness :
    baseKit.generate_idempotency_key baseInstant "md5" =
      .error (.unsupportedAlgorithm ("unsupported hash type " ++ "md5")) ∧
    ∃ s, baseKit.generate_idempotency_key baseInstant "sha256" = .ok s :=
  ⟨(c6_unsupported_algorithm baseKit baseInstant "md5" (by decide)).1.mpr rfl,
    (c6_unsupported_algorithm baseKit baseInstant "sha256" (by decide)).2
      sha256Bytes rfl⟩

/-- C7: with a fixed registered algorithm, the receiver half of the key
is determined by the normalized receiver fields alone (independent of
every sender-side, amount, client and time input), and the sender half
by the sender-side fields and the timecode alone (independent of the
receiver fields). -/
theorem c7_separation (k1 k2 : PaymentIdentikit) (t1 t2 : Instant)
    (alg tc1 tc2 : String) (hf : List Nat → List Nat)
    (halg : hashlibRegistry alg = some hf)
    (htc1 : k1.generate_timecode t1 = .ok tc1)
    (htc2 : k2.generate_timecode t2 = .ok tc2) :
    (k1.receiver_bank_code = k2.receiver_bank_code →
      k1.receiver_account_number = k2.receiver_account_number →
      ∃ r s1 s2,
        k1.generate_idempotency_key t1 alg = .ok (r ++ "." ++ s1) ∧
        k2.generate_idempotency_key t2 alg = .ok (r ++ "." ++ s2)) ∧
    (k1.sender_bank_code = k2.sender_bank_code →
      k1.sender_account_number = k2.sender_account_number →
      tc1 = tc2 →
      k1.transaction_amount = k2.transaction_amount →
      k1.internal_transaction_narration = k2.internal_transaction_narration →
      k1.client_type = k2.client_type →
      k1.client_id = k2.client_id →
      k1.client_location = k2.client_location →
      ∃ r1 r2 s,
        k1.generate_idempotency_key t1 alg = .ok (r1 ++ "." ++ s) ∧
        k2.generate_idempotency_key t2 alg = .ok (r2 ++ "." ++ s)) := by
  constructor
  · intro h1 h2
    refine ⟨hexOfBytes (hf (utf8 (specReceiverString k1))),
      hexOfBytes (hf (utf8 (specSenderString k1 tc1))),
      hexOfBytes (hf (utf8 (specSenderString k2 tc2))), ?_, ?_⟩
    · exact generate_idempotency_key_ok k1 t1 alg tc1 hf htc1 halg
    · have hrec : specReceiverString k2 = specReceiverString k1 := by
        unfold specReceiverString
        rw [h1, h2]
      rw [generate_idempotency_key_ok k2 t2 alg tc2 hf htc2 halg]
      unfold specKeyString
      rw [hrec]
  · intro hs1 hs2 hstc hamt hitn hct hcid hcloc
    refine ⟨hexOfBytes (hf (utf8 (specReceiverString k1))),
      hexOfBytes (hf (utf8 (specReceiverString k2))),
      hexOfBytes (hf (utf8 (specSenderString k1 tc1))), ?_, ?_⟩
    · exact generate_idempotency_key_ok k1 t1 alg tc1 hf htc1 halg
    · have hsend : specSenderString k2 tc2 = specSenderString k1 tc1 := by
        unfold specSenderString
        rw [hs1, hs2, hstc, hamt, hitn, hct, hcid, hcloc]
      rw [generate_idempotency_key_ok k2 t2 alg tc2 hf htc2 halg]
      unfold specKeyString
      rw [hsend]

/-- A variant of `baseKit` that changes only sender-side inputs. -/
def senderVariantKit : PaymentIdentikit :=
  { baseKit with
    transaction_amount := mkRat 55 1
    client_id := "other" }

theorem c7_separation_witness :
    ∃ r s1 s2,
      baseKit.generate_idempotency_key baseInstant "sha256" =
        .ok (r ++ "." ++ s1) ∧
      senderVariantKit.generate_idempotency_key ⟨2025, 1, 2, 3, 44⟩
        "sha256" = .ok (r ++ "." ++ s2) :=
  (c7_separation baseKit senderVariantKit
    baseInstant ⟨2025, 1, 2, 3, 44⟩ "sha256" "202403071400" "202501020330"
    sha256Bytes rfl (by decide) (by decide)).1 rfl rfl

/-- The `baseKit` with amount 200.00 instead of 100.00. -/
def kit200 : PaymentIdentikit :=
  { baseKit with transaction_amount := mkRat 200 1 }

/-- The `baseKit` with a changed receiver bank code. -/
def kitRbcX : PaymentIdentikit :=
  { baseKit with receiver_bank_code := "BANKX" }

/-- The `baseKit` with amount 0.1. -/
def kitTenth : PaymentIdentikit :=
  { baseKit with transaction_amount := mkRat 1 10 }

/-- The `baseKit` with amount 0.10000001, which renders as "0.10" just
like 0.1 does. -/
def kitTenthEps : PaymentIdentikit :=
  { baseKit with transaction_amount := mkRat 10000001 100000000 }

/-- C8 as stated is falsified by the amount field: `kitTenth` and
`kitTenthEps` differ in exactly one component field
(`transaction_amount`, 0.1 versus 0.10000001), yet neither pre-hash
string changes and the generated keys are identical, because both
amounts format to "0.10". -/
theorem c8_counterexample :
    decide (kitTenth.transaction_amount = kitTenthEps.transaction_amount) =
      false ∧
    specReceiverString kitTenth = specReceiverString kitTenthEps ∧
    specSenderString kitTenth "202403071400" =
      specSenderString kitTenthEps "202403071400" ∧
    kitTenth.generate_idempotency_key baseInstant "sha256" =
      kitTenthEps.generate_idempotency_key baseInstant "sha256" := by
  refine ⟨by decide, by decide, by decide, ?_⟩
  rw [generate_idempotency_key_ok kitTenth baseInstant "sha256"
      "202403071400" sha256Bytes (by decide) rfl,
    generate_idempotency_key_ok kitTenthEps baseInstant "sha256"
      "202403071400" sha256Bytes (by decide) rfl]
  unfold specKeyString
  rw [show specReceiverString kitTenth = specReceiverString kitTenthEps
      from by decide,
    show specSenderString kitTenth "202403071400" =
      specSenderString kitTenthEps "202403071400" from by decide]

/-- C8 (amended): changing exactly one component field, with all
other fields and the timecode held fixed, changes the receiver
pre-hash string (for the two receiver fields) or the sender pre-hash
string (for the six sender-side fields), where for the amount the two
values must differ in their 2-decimal rendering; and concretely, with
the default 15-minute interval, the keys for amount 100.00, amount
200.00 and a changed receiver bank code are pairwise distinct. -/
theorem c8_discrimination (k : PaymentIdentikit) (tc s : String) (a : ℚ)
    (c : ClientType) :
    (s ≠ k.receiver_bank_code →
      specReceiverString { k with receiver_bank_code := s } ≠
        specReceiverString k) ∧
    (s ≠ k.receiver_account_number →
      specReceiverString { k with receiver_account_number := s } ≠
        specReceiverString k) ∧
    (s ≠ k.sender_bank_code →
      specSenderString { k with sender_bank_code := s } tc ≠
        specSenderString k tc) ∧
    (s ≠ k.sender_account_number →
      specSenderString { k with sender_account_number := s } tc ≠
        specSenderString k tc) ∧
    (formatAmount2 a ≠ formatAmount2 k.transaction_amount →
      specSenderString { k with transaction_amount := a } tc ≠
        specSenderString k tc) ∧
    (s ≠ k.internal_transaction_narration →
      specSenderString { k with internal_transaction_narration := s } tc ≠
        specSenderString k tc) ∧
    (c ≠ k.client_type →
      specSenderString { k with client_type := c } tc ≠
        specSenderString k tc) ∧
    (s ≠ k.client_id →
      specSenderString { k with client_id := s } tc ≠
        specSenderString k tc) ∧
    (s ≠ k.client_location →
      specSenderString { k with client_location := s } tc ≠
        specSenderString k tc) ∧
    baseKit.generate_idempotency_key baseInstant "sha256" ≠
      kit200.generate_idempotency_key baseInstant "sha256" ∧
    baseKit.generate_idempotency_key baseInstant "sha256" ≠
      kitRbcX.generate_idempotency_key baseInstant "sha256" ∧
    kit200.generate_idempotency_key baseInstant "sha256" ≠
      kitRbcX.generate_idempotency_key baseInstant "sha256" := by
  refine ⟨?_, ?_, ?_, ?_, ?_, ?_, ?_, ?_, ?_, by decide, by decide,
    by decide⟩
  · intro hne he
    have hd := congrArg String.data he
    simp only [specReceiverString, String.data_append] at hd
    exact hne (String.ext ((List.append_left_inj _).mp
      ((List.append_left_inj _).mp hd)))
  · intro hne he
    have hd := congrArg String.data he
    simp only [specReceiverString, String.data_append] at hd
    exact hne (String.ext (List.append_cancel_left hd))
  · intro hne he
    have hd := congrArg String.data he
    simp only [specSenderString, String.data_append, List.append_assoc] at hd
    exact hne (String.ext ((List.append_left_inj _).mp hd))
  · intro hne he
    have hd := congrArg String.data he
    simp only [specSenderString, String.data_append, List.append_assoc] at hd
    simp only [List.append_right_inj] at hd
    exact hne (String.ext ((List.append_left_inj _).mp hd))
  · intro hne he
    have hd := congrArg String.data he
    simp only [specSenderString, String.data_append, List.append_assoc] at hd
    simp only [List.append_right_inj] at hd
    exact hne (String.ext ((List.append_left_inj _).mp hd))
  · intro hne he
    have hd := congrArg String.data he
    simp only [specSenderString, String.data_append, List.append_assoc] at hd
    simp only [List.append_right_inj] at hd
    exact hne (String.ext ((List.append_left_inj _).mp hd))
  · intro hne he
    have hd := congrArg String.data he
    simp only [specSenderString, String.data_append, List.append_assoc] at hd
    simp only [List.append_right_inj] at hd
    exact hne (clientType_value_inj _ _
      (String.ext ((List.append_left_inj _).mp hd)))
  · intro hne he
    have hd := congrArg String.data he
    simp only [specSenderString, String.data_append, List.append_assoc] at hd
    simp only [List.append_right_inj] at hd
    exact hne (String.ext ((List.append_left_inj _).mp hd))
  · intro hne he
    have hd := congrArg String.data he
    simp only [specSenderString, String.data_append, List.append_assoc] at hd
    simp only [List.append_right_inj] at hd
    exact hne (String.ext hd)

theorem c8_discrimination_witness :
    specReceiverString { baseKit with receiver_bank_code := "BANKX" } ≠
      specReceiverString baseKit ∧
    specSenderString { baseKit with transaction_amount := mkRat 200 1 }
        "202403071400" ≠
      specSenderString baseKit "202403071400" :=
  ⟨(c8_discrimination baseKit "202403071400" "BANKX" 0 .other).1
      (by decide),
    (c8_discrimination baseKit "202403071400" "" (mkRat 200 1)
      .other).2.2.2.2.1 (by decide)⟩

/-- The `baseKit` with amount 0.139. -/
def kitAmt139 : PaymentIdentikit :=
  { baseKit with transaction_amount := mkRat 139 1000 }

/-- The `baseKit` with amount 0.13. -/
def kitAmt13 : PaymentIdentikit :=
  { baseKit with transaction_amount := mkRat 13 100 }

/-- C9 as stated is falsified by rounding at the second decimal: the
amounts 0.139 and 0.13 agree in integer part and in the first two
decimal digits, yet they format to "0.14" and "0.13" respectively, so
two otherwise identical Identikits generate different keys at the
same instant and algorithm. -/
theorem c9_counterexample :
    ratFloor kitAmt139.transaction_amount =
      ratFloor kitAmt13.transaction_amount ∧
    decimalDigit 1 kitAmt139.transaction_amount =
      decimalDigit 1 kitAmt13.transaction_amount ∧
    decimalDigit 2 kitAmt139.transaction_amount =
      decimalDigit 2 kitAmt13.transaction_amount ∧
    formatAmount2 kitAmt139.transaction_amount = "0.14" ∧
    formatAmount2 kitAmt13.transaction_amount = "0.13" ∧
    decide (kitAmt139.generate_idempotency_key baseInstant "sha256" =
      kitAmt13.generate_idempotency_key baseInstant "sha256") = false := by
  exact ⟨by decide, by decide, by decide, by decide, by decide, by decide⟩

/-- C9 (amended): two Identikits identical in every field except the
transaction amount generate identical keys for the same instant and
algorithm whenever the two amounts have the same 2-decimal rendering
(rather than merely agreeing in their first two decimal digits). -/
theorem c9_amount_collapse (k : PaymentIdentikit) (a2 : ℚ) (t : Instant)
    (alg : String)
    (hfmt : formatAmount2 k.transaction_amount = formatAmount2 a2) :
    ({ k with transaction_amount := a2 } :
        PaymentIdentikit).generate_idempotency_key t alg =
      k.generate_idempotency_key t alg := by
  simp only [PaymentIdentikit.generate_idempotency_key,
    PaymentIdentikit.generate_timecode]
  rw [← hfmt]

theorem c9_amount_collapse_witness :
    ({ baseKit with transaction_amount := mkRat 1000001 10000 } :
        PaymentIdentikit).generate_idempotency_key baseInstant "sha256" =
      baseKit.generate_idempotency_key baseInstant "sha256" :=
  c9_amount_collapse baseKit (mkRat 1000001 10000) baseInstant "sha256"
    (by decide)

/-- C10: validation never inspects the timecode interval, so
construction with a zero interval succeeds exactly as with the
default; on such an object the timecode and therefore the key
derivation fail with `ZeroDivisionError` (not `InvalidInput` and not
`UnsupportedAlgorithm`), whatever the requested algorithm. -/
theorem c10_zero_interval (rbc ran sbc san : String) (amt : ℚ)
    (ct : ClientType) (cloc : String) (itn cid : Option String) (iv : Int)
    (t : Instant) (alg : String) :
    (PaymentIdentikit.make rbc ran sbc san amt ct cloc itn cid 0).isOk =
      (PaymentIdentikit.make rbc ran sbc san amt ct cloc itn cid iv).isOk ∧
    (∀ k, PaymentIdentikit.make rbc ran sbc san amt ct cloc itn cid 0 =
        .ok k →
      k.generate_timecode t = .error .zeroDivision ∧
      k.generate_idempotency_key t alg = .error .zeroDivision) := by
  constructor
  · unfold PaymentIdentikit.make PaymentIdentikit.validate
    split_ifs <;> rfl
  · intro k hk
    have hk0 : k.timecode_interval_minutes = 0 := by
      unfold PaymentIdentikit.make PaymentIdentikit.validate at hk
      split_ifs at hk
      simp_all
      rw [← hk]
    constructor
    · unfold PaymentIdentikit.generate_timecode
      rw [if_pos hk0]
    · exact generate_idempotency_key_zero k t alg hk0

theorem c10_zero_interval_witness :
    ({ baseKit with timecode_interval_minutes := 0 } :
        PaymentIdentikit).generate_timecode baseInstant =
      .error .zeroDivision ∧
    ({ baseKit with timecode_interval_minutes := 0 } :
        PaymentIdentikit).generate_idempotency_key baseInstant "sha256" =
      .error .zeroDivision :=
  (c10_zero_interval "BANK001" "1234567890" "BANK002" "9876543210"
    (mkRat 100 1) .web_app "US-CA-SF" (some "PAYMENT") (some "client-1")
    15 baseInstant "sha256").2 _ (by decide)

end IdemKey
